import Mathlib

/-!
Shallow embedding of the Hugoland game-state engine
(`src/hooks/useGameState.ts`).

JavaScript numbers are modelled exactly: values that are integers in every
reachable program state are `ℤ`; the knowledge-streak multiplier, which the
source stores as a fractional number, is `ℚ`; every `Math.floor` becomes
`Int.floor` on `ℚ`.  React's `setGameState(updater)` calls are modelled as
pure functions `GameState → GameState`; when one transition queues several
updaters (as `attack` and `openChest` do), the model composes them in the
order React applies them: the updater already executing first, then the
queued ones in call order.

External collaborators whose code is not part of the repository
(`generateWeapon` / `generateArmor` / `generateEnemy` from gameUtils, the
achievement engine from achievements.ts, wall-clock time, `Math.random`)
are supplied as parameters: generated items and enemies and the random
draws travel in the intent, `calculateResearchBonus` and
`checkAchievements` live in an `Env` record.
-/

namespace Hugoland

/-- Rarity tiers, from `Weapon/Armor.rarity`. -/
inductive Rarity where
  | common | rare | epic | legendary | mythical
deriving DecidableEq, Repr

/-- A weapon (types/game.ts shape as used by useGameState.ts).
`level`, `upgradeCost`, `sellPrice`, `baseAtk` are JS numbers (integral). -/
structure Weapon where
  id : String
  name : String
  rarity : Rarity
  level : ℤ
  baseAtk : ℤ
  upgradeCost : ℤ
  sellPrice : ℤ
deriving DecidableEq, Repr

/-- An armor piece. -/
structure Armor where
  id : String
  name : String
  rarity : Rarity
  level : ℤ
  baseDef : ℤ
  upgradeCost : ℤ
  sellPrice : ℤ
deriving DecidableEq, Repr

/-- The source discriminates weapons from armor by probing for the
weapon-only field (`'baseAtk' in item`); the tagged sum makes that
discriminant explicit. -/
inductive Item where
  | weapon (w : Weapon)
  | armor (a : Armor)
deriving DecidableEq, Repr

/-- `'baseAtk' in item`. -/
def Item.isWeapon : Item → Bool
  | .weapon _ => true
  | .armor _ => false

def Item.name : Item → String
  | .weapon w => w.name
  | .armor a => a.name

def Item.rarity : Item → Rarity
  | .weapon w => w.rarity
  | .armor a => a.rarity

/-- Player statistics.  `def` is a Lean keyword, so the source's `def`
field is called `defense` here. -/
structure PlayerStats where
  hp : ℤ
  maxHp : ℤ
  atk : ℤ
  defense : ℤ
  baseAtk : ℤ
  baseDef : ℤ
  baseHp : ℤ
deriving DecidableEq, Repr

/-- An enemy (`def` field renamed `defense`). -/
structure Enemy where
  name : String
  zone : ℤ
  hp : ℤ
  maxHp : ℤ
  atk : ℤ
  defense : ℤ
deriving DecidableEq, Repr

structure Inventory where
  weapons : List Weapon
  armor : List Armor
  currentWeapon : Option Weapon
  currentArmor : Option Armor
deriving DecidableEq, Repr

structure Research where
  level : ℤ
  tier : ℤ
  totalSpent : ℤ
deriving DecidableEq, Repr

/-- Per-rarity discovery tally of the collection book. -/
structure RarityStats where
  common : ℤ
  rare : ℤ
  epic : ℤ
  legendary : ℤ
  mythical : ℤ
deriving DecidableEq, Repr

def RarityStats.bump (rs : RarityStats) : Rarity → RarityStats
  | .common => { rs with common := rs.common + 1 }
  | .rare => { rs with rare := rs.rare + 1 }
  | .epic => { rs with epic := rs.epic + 1 }
  | .legendary => { rs with legendary := rs.legendary + 1 }
  | .mythical => { rs with mythical := rs.mythical + 1 }

/-- The collection book.  The source's `{ [name]: boolean }` objects (whose
stored values are always `true`) are modelled as the list of discovered
names; the JS truthiness test `book[name]` is list membership. -/
structure CollectionBook where
  weapons : List String
  armor : List String
  totalWeaponsFound : ℤ
  totalArmorFound : ℤ
  rarityStats : RarityStats
deriving DecidableEq, Repr

/-- Knowledge streak.  `multiplier` is stored as a fractional JS number;
`lastCorrectTime` is an abstract timestamp. -/
structure KnowledgeStreak where
  current : ℤ
  best : ℤ
  multiplier : ℚ
  lastCorrectTime : Option ℕ := none
deriving DecidableEq, Repr

inductive ModeKind where
  | normal | speed | survival
deriving DecidableEq, Repr

structure GameMode where
  current : ModeKind
  speedModeActive : Bool
  survivalLives : ℤ
  maxSurvivalLives : ℤ
deriving DecidableEq, Repr

/-- Statistics.  `accuracyByCategory` (a JS object keyed by category name,
values `{correct, total}`) is an association list; `sessionStartTime` is an
abstract timestamp. -/
structure Statistics where
  totalQuestionsAnswered : ℤ
  correctAnswers : ℤ
  totalPlayTime : ℤ
  zonesReached : ℤ
  itemsCollected : ℤ
  coinsEarned : ℤ
  gemsEarned : ℤ
  chestsOpened : ℤ
  accuracyByCategory : List (String × ℤ × ℤ)
  sessionStartTime : ℕ
deriving DecidableEq, Repr

/-- Modelled from the spec: achievements.ts is not under src/.  Per the
spec an achievement has an `id`, an unlocked flag, and an optional reward
(`coins`, `gems`); the `reward.coins || 0` defaulting of the source is the
`Option` lookup below. -/
structure Achievement where
  id : String
  unlocked : Bool
  reward : Option (ℤ × ℤ) := none
deriving DecidableEq, Repr

structure GameState where
  coins : ℤ
  gems : ℤ
  zone : ℤ
  playerStats : PlayerStats
  inventory : Inventory
  currentEnemy : Option Enemy
  inCombat : Bool
  combatLog : List String
  research : Research
  isPremium : Bool
  achievements : List Achievement
  collectionBook : CollectionBook
  knowledgeStreak : KnowledgeStreak
  gameMode : GameMode
  statistics : Statistics
deriving DecidableEq, Repr

/-- Transient result of `openChest` (`ChestReward`).  `ctypeWeapon` is the
50/50 `type` label draw. -/
structure ChestReward where
  ctypeWeapon : Bool
  items : List Item
deriving DecidableEq, Repr

/-- The external collaborators the engine calls:
`rb` is `calculateResearchBonus(level, tier)` (gameUtils, not under src/,
spec: "researchBonus supplied externally", a percentage);
`chk` is `checkAchievements(state)` (achievements.ts, not under src/,
spec: "newly unlocked subset, pure function of state"). -/
structure Env where
  rb : ℤ → ℤ → ℚ
  chk : GameState → List Achievement

/-! ## Initial state (useGameState.ts lines 9–88) -/

def initialPlayerStats : PlayerStats :=
  { hp := 200, maxHp := 200, atk := 50, defense := 0,
    baseAtk := 50, baseDef := 0, baseHp := 200 }

def initialInventory : Inventory :=
  { weapons := [], armor := [], currentWeapon := none, currentArmor := none }

def initialResearch : Research := { level := 0, tier := 0, totalSpent := 0 }

def initialCollectionBook : CollectionBook :=
  { weapons := [], armor := [], totalWeaponsFound := 0, totalArmorFound := 0,
    rarityStats := { common := 0, rare := 0, epic := 0, legendary := 0, mythical := 0 } }

def initialKnowledgeStreak : KnowledgeStreak :=
  { current := 0, best := 0, multiplier := 1 }

def initialGameMode : GameMode :=
  { current := .normal, speedModeActive := false, survivalLives := 3, maxSurvivalLives := 3 }

def initialStatistics : Statistics :=
  { totalQuestionsAnswered := 0, correctAnswers := 0, totalPlayTime := 0,
    zonesReached := 1, itemsCollected := 0, coinsEarned := 0, gemsEarned := 0,
    chestsOpened := 0, accuracyByCategory := [], sessionStartTime := 0 }

/-- The initial game state; `cat` stands in for the external
`initializeAchievements()` catalog. -/
def initialGameState (cat : List Achievement) : GameState :=
  { coins := 100, gems := 0, zone := 1,
    playerStats := initialPlayerStats, inventory := initialInventory,
    currentEnemy := none, inCombat := false, combatLog := [],
    research := initialResearch, isPremium := false, achievements := cat,
    collectionBook := initialCollectionBook,
    knowledgeStreak := initialKnowledgeStreak,
    gameMode := initialGameMode, statistics := initialStatistics }

/-! ## Collection book, streak, statistics, achievements (lines 199–316) -/

/-- `updateCollectionBook` (lines 199–229): first-time-only bookkeeping. -/
def updateCollectionBook (item : Item) (s : GameState) : GameState :=
  if item.isWeapon then
    if s.collectionBook.weapons.contains item.name then s
    else
      { s with
        collectionBook := { s.collectionBook with
          weapons := item.name :: s.collectionBook.weapons,
          totalWeaponsFound := s.collectionBook.totalWeaponsFound + 1,
          rarityStats := s.collectionBook.rarityStats.bump item.rarity },
        statistics := { s.statistics with
          itemsCollected := s.statistics.itemsCollected + 1 } }
  else
    if s.collectionBook.armor.contains item.name then s
    else
      { s with
        collectionBook := { s.collectionBook with
          armor := item.name :: s.collectionBook.armor,
          totalArmorFound := s.collectionBook.totalArmorFound + 1,
          rarityStats := s.collectionBook.rarityStats.bump item.rarity },
        statistics := { s.statistics with
          itemsCollected := s.statistics.itemsCollected + 1 } }

/-- `min(1 + Math.floor(newCurrent / 5) * 0.1, 2)` (line 235). -/
def streakMultiplier (current : ℤ) : ℚ :=
  min (1 + (⌊(current : ℚ) / 5⌋ : ℚ) * (1 / 10)) 2

/-- `updateKnowledgeStreak` (lines 231–254); `now` abstracts `new Date()`. -/
def updateKnowledgeStreak (now : ℕ) (correct : Bool) (s : GameState) : GameState :=
  let newCurrent : ℤ := if correct then s.knowledgeStreak.current + 1 else 0
  let newBest := max s.knowledgeStreak.best newCurrent
  let newMultiplier := streakMultiplier newCurrent
  { s with
    knowledgeStreak :=
      { current := newCurrent, best := newBest, multiplier := newMultiplier,
        lastCorrectTime :=
          if correct then some now else s.knowledgeStreak.lastCorrectTime } }

/-- Association-list read of `accuracyByCategory[category]`, with the
source's `?.correct || 0` / `?.total || 0` defaulting. -/
def accLookup (category : String) : List (String × ℤ × ℤ) → ℤ × ℤ
  | [] => (0, 0)
  | p :: rest => if p.1 = category then p.2 else accLookup category rest

/-- Association-list write of `accuracyByCategory[category] = v`. -/
def accSet (category : String) (v : ℤ × ℤ) : List (String × ℤ × ℤ) → List (String × ℤ × ℤ)
  | [] => [(category, v)]
  | p :: rest => if p.1 = category then (category, v) :: rest else p :: accSet category v rest

/-- `updateStatistics` (lines 256–272). -/
def updateStatistics (category : String) (correct : Bool) (s : GameState) : GameState :=
  let old := accLookup category s.statistics.accuracyByCategory
  { s with
    statistics := { s.statistics with
      totalQuestionsAnswered := s.statistics.totalQuestionsAnswered + 1,
      correctAnswers := s.statistics.correctAnswers + (if correct then 1 else 0),
      accuracyByCategory :=
        accSet category
          (old.1 + (if correct then 1 else 0), old.2 + 1)
          s.statistics.accuracyByCategory } }

/-- `checkAndUnlockAchievements` (lines 274–316); the external
`checkAchievements` is `env.chk`. -/
def checkAndUnlockAchievements (env : Env) (s : GameState) : GameState :=
  let newUnlocks := env.chk s
  if newUnlocks.isEmpty then s
  else
    let bonusCoins :=
      newUnlocks.foldl (fun acc a => acc + (a.reward.map Prod.fst).getD 0) 0
    let bonusGems :=
      newUnlocks.foldl (fun acc a => acc + (a.reward.map Prod.snd).getD 0) 0
    { s with
      coins := s.coins + bonusCoins,
      gems := s.gems + bonusGems,
      achievements := s.achievements.map (fun existing =>
        (newUnlocks.find? (fun nu => nu.id == existing.id)).getD existing) }

/-! ## Derived-stat recomputation, mode switch, equipment (lines 318–471) -/

/-- `updatePlayerStats` (lines 318–345): recompute `atk`/`def`/`maxHp`
from bases, equipment and research bonus, then clamp `hp`. -/
def updatePlayerStats (env : Env) (s : GameState) : GameState :=
  let weaponAtk : ℤ :=
    match s.inventory.currentWeapon with
    | some w => w.baseAtk + (w.level - 1) * 10
    | none => 0
  let armorDef : ℤ :=
    match s.inventory.currentArmor with
    | some a => a.baseDef + (a.level - 1) * 5
    | none => 0
  let researchBonus := env.rb s.research.level s.research.tier
  let bonusMultiplier : ℚ := 1 + researchBonus / 100
  let finalAtk := ⌊((s.playerStats.baseAtk + weaponAtk : ℤ) : ℚ) * bonusMultiplier⌋
  let finalDef := ⌊((s.playerStats.baseDef + armorDef : ℤ) : ℚ) * bonusMultiplier⌋
  let finalMaxHp := ⌊((s.playerStats.baseHp : ℤ) : ℚ) * bonusMultiplier⌋
  { s with
    playerStats := { s.playerStats with
      atk := finalAtk, defense := finalDef, maxHp := finalMaxHp,
      hp := min s.playerStats.hp finalMaxHp } }

/-- `setGameMode` (lines 347–357). -/
def setGameMode (mode : ModeKind) (s : GameState) : GameState :=
  { s with
    gameMode := { s.gameMode with
      current := mode,
      speedModeActive := mode == .speed,
      survivalLives :=
        if mode == .survival then s.gameMode.maxSurvivalLives
        else s.gameMode.survivalLives } }

/-- `equipWeapon` (lines 359–368): set the reference, then recompute. -/
def equipWeapon (env : Env) (weapon : Weapon) (s : GameState) : GameState :=
  updatePlayerStats env
    { s with inventory := { s.inventory with currentWeapon := some weapon } }

/-- `equipArmor` (lines 370–379). -/
def equipArmor (env : Env) (armor : Armor) (s : GameState) : GameState :=
  updatePlayerStats env
    { s with inventory := { s.inventory with currentArmor := some armor } }

/-- The per-entry update of `upgradeWeapon`'s `map` (line 388). -/
def upgradeWeaponEntry (weaponId : String) (w : Weapon) : Weapon :=
  if w.id == weaponId then
    { w with level := w.level + 1,
             upgradeCost := ⌊(w.upgradeCost : ℚ) * (3 / 2)⌋,
             sellPrice := ⌊(w.sellPrice : ℚ) * (6 / 5)⌋ }
  else w

/-- The state updater of `upgradeWeapon` (lines 382–407). -/
def upgradeWeaponCore (weaponId : String) (s : GameState) : GameState :=
  match s.inventory.weapons.find? (fun w => w.id == weaponId) with
  | none => s
  | some weapon =>
    if s.gems < weapon.upgradeCost then s
    else
      let updatedWeapons := s.inventory.weapons.map (upgradeWeaponEntry weaponId)
      let updatedCurrentWeapon : Option Weapon :=
        match s.inventory.currentWeapon with
        | some cw =>
          if cw.id == weaponId then updatedWeapons.find? (fun w => w.id == weaponId)
          else some cw
        | none => none
      { s with
        gems := s.gems - weapon.upgradeCost,
        inventory := { s.inventory with
          weapons := updatedWeapons, currentWeapon := updatedCurrentWeapon } }

/-- `upgradeWeapon` (lines 381–409): the updater, then the unconditional
trailing `updatePlayerStats()`. -/
def upgradeWeapon (env : Env) (weaponId : String) (s : GameState) : GameState :=
  updatePlayerStats env (upgradeWeaponCore weaponId s)

/-- The per-entry update of `upgradeArmor`'s `map` (line 418). -/
def upgradeArmorEntry (armorId : String) (a : Armor) : Armor :=
  if a.id == armorId then
    { a with level := a.level + 1,
             upgradeCost := ⌊(a.upgradeCost : ℚ) * (3 / 2)⌋,
             sellPrice := ⌊(a.sellPrice : ℚ) * (6 / 5)⌋ }
  else a

/-- The state updater of `upgradeArmor` (lines 412–437). -/
def upgradeArmorCore (armorId : String) (s : GameState) : GameState :=
  match s.inventory.armor.find? (fun a => a.id == armorId) with
  | none => s
  | some armor =>
    if s.gems < armor.upgradeCost then s
    else
      let updatedArmor := s.inventory.armor.map (upgradeArmorEntry armorId)
      let updatedCurrentArmor : Option Armor :=
        match s.inventory.currentArmor with
        | some ca =>
          if ca.id == armorId then updatedArmor.find? (fun a => a.id == armorId)
          else some ca
        | none => none
      { s with
        gems := s.gems - armor.upgradeCost,
        inventory := { s.inventory with
          armor := updatedArmor, currentArmor := updatedCurrentArmor } }

/-- `upgradeArmor` (lines 411–439). -/
def upgradeArmor (env : Env) (armorId : String) (s : GameState) : GameState :=
  updatePlayerStats env (upgradeArmorCore armorId s)

/-- `prev.inventory.currentWeapon?.id === weaponId` (line 444). -/
def currentWeaponIdIs (s : GameState) (weaponId : String) : Bool :=
  match s.inventory.currentWeapon with
  | some cw => cw.id == weaponId
  | none => false

/-- `prev.inventory.currentArmor?.id === armorId` (line 460). -/
def currentArmorIdIs (s : GameState) (armorId : String) : Bool :=
  match s.inventory.currentArmor with
  | some ca => ca.id == armorId
  | none => false

/-- `sellWeapon` (lines 441–455). -/
def sellWeapon (weaponId : String) (s : GameState) : GameState :=
  match s.inventory.weapons.find? (fun w => w.id == weaponId) with
  | none => s
  | some weapon =>
    if currentWeaponIdIs s weaponId then s
    else
      { s with
        coins := s.coins + weapon.sellPrice,
        inventory := { s.inventory with
          weapons := s.inventory.weapons.filter (fun w => !(w.id == weaponId)) } }

/-- `sellArmor` (lines 457–471). -/
def sellArmor (armorId : String) (s : GameState) : GameState :=
  match s.inventory.armor.find? (fun a => a.id == armorId) with
  | none => s
  | some armor =>
    if currentArmorIdIs s armorId then s
    else
      { s with
        coins := s.coins + armor.sellPrice,
        inventory := { s.inventory with
          armor := s.inventory.armor.filter (fun a => !(a.id == armorId)) } }

/-! ## Research, chests, combat (lines 473–708) -/

/-- `upgradeResearch` (lines 473–498): the updater, then the trailing
`updatePlayerStats()` and `checkAndUnlockAchievements()`. -/
def upgradeResearch (env : Env) (s : GameState) : GameState :=
  let researchCost : ℤ := 150
  let s1 :=
    if s.coins < researchCost then s
    else
      let newLevel := s.research.level + 1
      let newTier := ⌊(newLevel : ℚ) / 10⌋
      { s with
        coins := s.coins - researchCost,
        research :=
          { level := newLevel, tier := newTier,
            totalSpent := s.research.totalSpent + researchCost } }
  checkAndUnlockAchievements env (updatePlayerStats env s1)

/-- `openChest` (lines 500–545).  The drawn `items` (2–3 of them from
`generateWeapon`/`generateArmor`, "mythical" generation gated on
`chestCost === 2500`), the bonus-gem draw `bonusGems ∈ [5,15)` and the
50/50 reward-type label `ctypeWeapon` are external randomness, passed in.
React order: the per-item `updateCollectionBook` updaters run first, then
the main updater (whose gem bonus reads the streak multiplier of the
pre-call state), then the achievement check. -/
def openChestFn (env : Env) (chestCost : ℤ) (items : List Item) (bonusGems : ℤ)
    (ctypeWeapon : Bool) (s : GameState) : Option ChestReward × GameState :=
  if s.coins < chestCost then (none, s)
  else
    let afterBook := items.foldl (fun acc it => updateCollectionBook it acc) s
    let streakMult := s.knowledgeStreak.multiplier
    let finalBonusGems := ⌊(bonusGems : ℚ) * streakMult⌋
    let newWeapons := items.filterMap (fun it =>
      match it with | .weapon w => some w | .armor _ => none)
    let newArmor := items.filterMap (fun it =>
      match it with | .weapon _ => none | .armor a => some a)
    let s2 :=
      { afterBook with
        coins := afterBook.coins - chestCost,
        gems := afterBook.gems + finalBonusGems,
        inventory := { afterBook.inventory with
          weapons := afterBook.inventory.weapons ++ newWeapons,
          armor := afterBook.inventory.armor ++ newArmor },
        statistics := { afterBook.statistics with
          chestsOpened := afterBook.statistics.chestsOpened + 1,
          gemsEarned := afterBook.statistics.gemsEarned + finalBonusGems } }
    (some { ctypeWeapon := ctypeWeapon, items := items },
     checkAndUnlockAchievements env s2)

/-- `startCombat` (lines 547–559); the enemy produced by the external
`generateEnemy(zone)` is passed in.  The combat log is replaced, not
appended to. -/
def startCombat (enemy : Enemy) (s : GameState) : GameState :=
  let n := enemy.name
  let z := enemy.zone
  { s with
    currentEnemy := some enemy,
    inCombat := true,
    playerStats := { s.playerStats with
      hp := if s.gameMode.current = .survival then s.playerStats.hp
            else s.playerStats.maxHp },
    combatLog := ["You encounter a " ++ n ++ " in Zone " ++ toString z ++ "!"] }

/-- Win-branch mode multiplier for coins (lines 615–624). -/
def modeCoinMult : ModeKind → ℚ
  | .speed => 3 / 2
  | .survival => 2
  | .normal => 1

/-- Win-branch mode multiplier for gems (lines 615–624). -/
def modeGemMult : ModeKind → ℚ
  | .speed => 5 / 4
  | .survival => 2
  | .normal => 1

/-- The win branch of `attack` (lines 613–656); `r ∈ [0,15)` and
`rg ∈ [0,3)` are the `Math.random()` draws for coins and gems. -/
def winBranch (r rg : ℤ) (s : GameState) (log : List String) : GameState :=
  let coinMultiplier := modeCoinMult s.gameMode.current * s.knowledgeStreak.multiplier
  let gemMultiplier := modeGemMult s.gameMode.current * s.knowledgeStreak.multiplier
  let baseCoins := s.zone * 8 + r
  let baseGems := rg + 1
  let coinsEarned := ⌊(baseCoins : ℚ) * coinMultiplier⌋
  let gemsEarned := ⌊(baseGems : ℚ) * gemMultiplier⌋
  let newZone := s.zone + 1
  let newIsPremium := decide (50 ≤ newZone)
  { s with
    coins := s.coins + coinsEarned,
    gems := s.gems + gemsEarned,
    zone := newZone,
    isPremium := newIsPremium,
    currentEnemy := none,
    inCombat := false,
    combatLog := log ++
      ["You earned " ++ toString coinsEarned ++ " coins and " ++
       toString gemsEarned ++ " gems!"],
    statistics := { s.statistics with
      zonesReached := max s.statistics.zonesReached newZone,
      coinsEarned := s.statistics.coinsEarned + coinsEarned,
      gemsEarned := s.statistics.gemsEarned + gemsEarned } }

/-- The defeat branch of `attack` (lines 657–695). -/
def lossBranch (newPlayerHp : ℤ) (s : GameState) (log : List String) : GameState :=
  if s.gameMode.current = .survival then
    let newLives := s.gameMode.survivalLives - 1
    if newLives ≤ 0 then
      { s with
        zone := 1,
        currentEnemy := none,
        inCombat := false,
        combatLog := log,
        playerStats := { s.playerStats with hp := 0 },
        gameMode := { initialGameMode with current := .normal },
        knowledgeStreak := { s.knowledgeStreak with current := 0 } }
    else
      { s with
        currentEnemy := none,
        inCombat := false,
        combatLog := log,
        playerStats := { s.playerStats with hp := newPlayerHp },
        gameMode := { s.gameMode with survivalLives := newLives } }
  else
    { s with
      currentEnemy := none,
      inCombat := false,
      combatLog := log,
      playerStats := { s.playerStats with hp := newPlayerHp },
      gameMode := s.gameMode }

/-- The combat arithmetic of `attack`'s own updater (lines 571–703),
with the guard already passed and `e = prev.currentEnemy`. -/
def attackCombat (hit : Bool) (r rg : ℤ) (s : GameState) (e : Enemy) : GameState :=
  let en := e.name
  if hit then
    let damage := max 1 (s.playerStats.atk - e.defense)
    let newEnemyHp := max 0 (e.hp - damage)
    let log1 := s.combatLog ++
      ["You deal " ++ toString damage ++ " damage to the " ++ en ++ "!"]
    if newEnemyHp ≤ 0 then
      winBranch r rg s (log1 ++ ["You defeated the " ++ en ++ "!"])
    else
      { s with
        currentEnemy := some { e with hp := newEnemyHp },
        playerStats := { s.playerStats with hp := s.playerStats.hp },
        combatLog := log1 }
  else
    let damage := max 1 (e.atk - s.playerStats.defense)
    let newPlayerHp := max 0 (s.playerStats.hp - damage)
    let log1 := s.combatLog ++
      ["You missed! The " ++ en ++ " deals " ++ toString damage ++ " damage to you!"]
    if newPlayerHp ≤ 0 then
      let log2 := log1 ++ ["You were defeated by the " ++ en ++ "..."]
      let log3 :=
        if s.gameMode.current = .survival ∧ s.gameMode.survivalLives - 1 ≤ 0 then
          log2 ++ ["Game Over! No lives remaining."]
        else log2
      lossBranch newPlayerHp s log3
    else
      { s with
        currentEnemy := some { e with hp := e.hp },
        playerStats := { s.playerStats with hp := newPlayerHp },
        combatLog := log1 }

/-- `attack` (lines 561–708).  The guard returns the state unchanged when
idle.  Otherwise the updater already executing (the combat arithmetic)
applies first; the `updateStatistics` updater queued by `if (category)`
(JS truthiness: skipped for an absent or empty category) and the
`updateKnowledgeStreak` updater apply after it, in that order.  The
`setTimeout` achievement check is a separate later transition
(`Intent.achievementCheck`), per the spec's §4.4. -/
def attackFn (hit : Bool) (category : Option String) (r rg : ℤ) (now : ℕ)
    (s : GameState) : GameState :=
  match s.currentEnemy with
  | none => s
  | some e =>
    if s.inCombat = false then s
    else
      let s1 := attackCombat hit r rg s e
      let s2 :=
        match category with
        | some c => if c = "" then s1 else updateStatistics c hit s1
        | none => s1
      updateKnowledgeStreak now hit s2

/-- The set of user-issued intents, with external randomness and
externally generated content carried as payload. -/
inductive Intent where
  | equipW (w : Weapon)
  | equipA (a : Armor)
  | upgradeW (id : String)
  | upgradeA (id : String)
  | sellW (id : String)
  | sellA (id : String)
  | research
  | chest (cost : ℤ) (items : List Item) (bonusGems : ℤ) (ctypeWeapon : Bool)
  | fight (enemy : Enemy)
  | attack (hit : Bool) (category : Option String) (r rg : ℤ) (now : ℕ)
  | mode (m : ModeKind)
  | achievementCheck

/-- One transition of the game-state store. -/
def applyIntent (env : Env) (i : Intent) (s : GameState) : GameState :=
  match i with
  | .equipW w => equipWeapon env w s
  | .equipA a => equipArmor env a s
  | .upgradeW id => upgradeWeapon env id s
  | .upgradeA id => upgradeArmor env id s
  | .sellW id => sellWeapon id s
  | .sellA id => sellArmor id s
  | .research => upgradeResearch env s
  | .chest cost items bg ct => (openChestFn env cost items bg ct s).2
  | .fight e => startCombat e s
  | .attack hit cat r rg now => attackFn hit cat r rg now s
  | .mode m => setGameMode m s
  | .achievementCheck => checkAndUnlockAchievements env s

/-! ## Shared helper lemmas -/

/-- A concrete environment: zero research bonus, no achievement unlocks. -/
def env0 : Env := { rb := fun _ _ => 0, chk := fun _ => [] }

lemma streakMultiplier_mono {c₁ c₂ : ℤ} (h : c₁ ≤ c₂) :
    streakMultiplier c₁ ≤ streakMultiplier c₂ := by
  unfold streakMultiplier
  refine min_le_min (add_le_add_left ?_ 1) le_rfl
  have hf : ⌊(c₁ : ℚ) / 5⌋ ≤ ⌊(c₂ : ℚ) / 5⌋ := by
    apply Int.floor_le_floor
    have : (c₁ : ℚ) ≤ (c₂ : ℚ) := by exact_mod_cast h
    linarith
  have : ((⌊(c₁ : ℚ) / 5⌋ : ℤ) : ℚ) ≤ ((⌊(c₂ : ℚ) / 5⌋ : ℤ) : ℚ) := by exact_mod_cast hf
  nlinarith

lemma streakMultiplier_le_two (c : ℤ) : streakMultiplier c ≤ 2 :=
  min_le_right _ _

lemma streakMultiplier_of_ge_fifty {c : ℤ} (h : 50 ≤ c) :
    streakMultiplier c = 2 := by
  unfold streakMultiplier
  apply min_eq_right
  have hf : (10 : ℤ) ≤ ⌊(c : ℚ) / 5⌋ := by
    apply Int.le_floor.mpr
    have : (50 : ℚ) ≤ (c : ℚ) := by exact_mod_cast h
    push_cast
    linarith
  have : ((10 : ℤ) : ℚ) ≤ ((⌊(c : ℚ) / 5⌋ : ℤ) : ℚ) := by exact_mod_cast hf
  nlinarith

/-! ## C4: knowledge-streak update and multiplier shape -/

/-- C4.  On every answered question the knowledge streak updates as
`current = correct ? current+1 : 0`, `best = max(best, current)`,
`multiplier = min(1 + floor(current/5)*0.1, 2)`; the multiplier is
monotone in `current`, capped at 2, and equals 1 at 0, 1.1 at 5, 1.5 at
25, 2 at 50 and beyond. -/
theorem claim_C4 (s : GameState) (correct : Bool) (now : ℕ) :
    ((updateKnowledgeStreak now correct s).knowledgeStreak.current
        = (if correct then s.knowledgeStreak.current + 1 else 0))
    ∧ ((updateKnowledgeStreak now correct s).knowledgeStreak.best
        = max s.knowledgeStreak.best
            ((updateKnowledgeStreak now correct s).knowledgeStreak.current))
    ∧ ((updateKnowledgeStreak now correct s).knowledgeStreak.multiplier
        = streakMultiplier
            ((updateKnowledgeStreak now correct s).knowledgeStreak.current))
    ∧ (∀ c₁ c₂ : ℤ, c₁ ≤ c₂ → streakMultiplier c₁ ≤ streakMultiplier c₂)
    ∧ (∀ c : ℤ, streakMultiplier c ≤ 2)
    ∧ streakMultiplier 0 = 1
    ∧ streakMultiplier 5 = 11 / 10
    ∧ streakMultiplier 25 = 3 / 2
    ∧ streakMultiplier 50 = 2
    ∧ (∀ c : ℤ, 50 ≤ c → streakMultiplier c = 2) := by
  refine ⟨rfl, rfl, rfl, fun c₁ c₂ h => streakMultiplier_mono h,
    streakMultiplier_le_two, ?_, ?_, ?_, ?_,
    fun c h => streakMultiplier_of_ge_fifty h⟩
  all_goals
    rw [streakMultiplier, min_def]
    norm_num

/-- Witness for C4 at concrete inputs. -/
theorem claim_C4_witness :
    streakMultiplier 3 ≤ streakMultiplier 7 ∧ streakMultiplier 60 = 2 := by
  refine ⟨?_, ?_⟩
  · exact (claim_C4 (initialGameState []) true 0).2.2.2.1 3 7 (by norm_num)
  · exact (claim_C4 (initialGameState []) true 0).2.2.2.2.2.2.2.2.2 60 (by norm_num)

/-! ## C9: collection-book recording is idempotent per item name -/

/-- Whether the item's name is already recorded in its category's book,
i.e. the truthiness test `prev.collectionBook[collectionKey][item.name]`. -/
def bookHas (item : Item) (s : GameState) : Bool :=
  if item.isWeapon then s.collectionBook.weapons.contains item.name
  else s.collectionBook.armor.contains item.name

/-- C9.  Recording an item whose name is already in its category's book
changes nothing (no count, rarity tally or `itemsCollected` increment),
and recording is idempotent per item name. -/
theorem claim_C9 (item : Item) (s : GameState) :
    (bookHas item s = true → updateCollectionBook item s = s)
    ∧ updateCollectionBook item (updateCollectionBook item s)
        = updateCollectionBook item s := by
  constructor
  · intro h
    cases item with
    | weapon w =>
      have h' : w.name ∈ s.collectionBook.weapons := by
        simpa [bookHas, Item.isWeapon, Item.name] using h
      simp [updateCollectionBook, Item.isWeapon, Item.name, h']
    | armor a =>
      have h' : a.name ∈ s.collectionBook.armor := by
        simpa [bookHas, Item.isWeapon, Item.name] using h
      simp [updateCollectionBook, Item.isWeapon, Item.name, h']
  · cases item with
    | weapon w =>
      by_cases h : w.name ∈ s.collectionBook.weapons
      · simp [updateCollectionBook, Item.isWeapon, Item.name, h]
      · simp [updateCollectionBook, Item.isWeapon, Item.name, h]
    | armor a =>
      by_cases h : a.name ∈ s.collectionBook.armor
      · simp [updateCollectionBook, Item.isWeapon, Item.name, h]
      · simp [updateCollectionBook, Item.isWeapon, Item.name, h]

/-! ## C6: upgrading an owned, affordable item -/

lemma upgradeWeaponEntry_id (wid : String) (w : Weapon) :
    (upgradeWeaponEntry wid w).id = w.id := by
  unfold upgradeWeaponEntry; split <;> rfl

lemma upgradeArmorEntry_id (aid : String) (a : Armor) :
    (upgradeArmorEntry aid a).id = a.id := by
  unfold upgradeArmorEntry; split <;> rfl

lemma find?_map_upgradeWeaponEntry (wid : String) :
    ∀ (l : List Weapon) (w : Weapon),
      l.find? (fun x => x.id == wid) = some w →
      (l.map (upgradeWeaponEntry wid)).find? (fun x => x.id == wid)
        = some (upgradeWeaponEntry wid w) := by
  intro l
  induction l with
  | nil => intro w h; simp at h
  | cons a t ih =>
    intro w h
    by_cases ha : (a.id == wid) = true
    · rw [List.find?_cons] at h
      simp only [ha, if_true] at h
      cases h
      simp [List.find?_cons, upgradeWeaponEntry_id, ha]
    · rw [List.find?_cons] at h
      simp only [ha] at h
      rw [List.map_cons, List.find?_cons,
        show ((upgradeWeaponEntry wid a).id == wid) = false by
          rw [upgradeWeaponEntry_id]; exact Bool.not_eq_true _ ▸ eq_false_of_ne_true ha]
      exact ih w h

lemma find?_map_upgradeArmorEntry (aid : String) :
    ∀ (l : List Armor) (a : Armor),
      l.find? (fun x => x.id == aid) = some a →
      (l.map (upgradeArmorEntry aid)).find? (fun x => x.id == aid)
        = some (upgradeArmorEntry aid a) := by
  intro l
  induction l with
  | nil => intro a h; simp at h
  | cons b t ih =>
    intro a h
    by_cases hb : (b.id == aid) = true
    · rw [List.find?_cons] at h
      simp only [hb, if_true] at h
      cases h
      simp [List.find?_cons, upgradeArmorEntry_id, hb]
    · rw [List.find?_cons] at h
      simp only [hb] at h
      rw [List.map_cons, List.find?_cons,
        show ((upgradeArmorEntry aid b).id == aid) = false by
          rw [upgradeArmorEntry_id]; exact Bool.not_eq_true _ ▸ eq_false_of_ne_true hb]
      exact ih a h

lemma updatePlayerStats_gems (env : Env) (s : GameState) :
    (updatePlayerStats env s).gems = s.gems := rfl

lemma updatePlayerStats_inventory (env : Env) (s : GameState) :
    (updatePlayerStats env s).inventory = s.inventory := rfl

lemma le_floor_three_half {c : ℤ} (h : 0 ≤ c) : c ≤ ⌊(c : ℚ) * (3 / 2)⌋ := by
  apply Int.le_floor.mpr
  nlinarith [(by exact_mod_cast h : (0 : ℚ) ≤ (c : ℚ))]

lemma lt_floor_three_half {c : ℤ} (h : 2 ≤ c) : c < ⌊(c : ℚ) * (3 / 2)⌋ := by
  have : c + 1 ≤ ⌊(c : ℚ) * (3 / 2)⌋ := by
    apply Int.le_floor.mpr
    push_cast
    nlinarith [(by exact_mod_cast h : (2 : ℚ) ≤ (c : ℚ))]
  omega

lemma le_floor_six_fifth {c : ℤ} (h : 0 ≤ c) : c ≤ ⌊(c : ℚ) * (6 / 5)⌋ := by
  apply Int.le_floor.mpr
  nlinarith [(by exact_mod_cast h : (0 : ℚ) ≤ (c : ℚ))]

lemma lt_floor_six_fifth {c : ℤ} (h : 5 ≤ c) : c < ⌊(c : ℚ) * (6 / 5)⌋ := by
  have : c + 1 ≤ ⌊(c : ℚ) * (6 / 5)⌋ := by
    apply Int.le_floor.mpr
    push_cast
    nlinarith [(by exact_mod_cast h : (5 : ℚ) ≤ (c : ℚ))]
  omega

/-- C6 (amended).  Upgrading an owned weapon or armor whose `upgradeCost`
the gem balance covers deducts that cost, increments the item's level by
1, and replaces `upgradeCost` by `floor(upgradeCost*1.5)` and `sellPrice`
by `floor(sellPrice*1.2)`; for non-negative values these never decrease,
and they strictly increase exactly when `upgradeCost ≥ 2` respectively
`sellPrice ≥ 5` (not always, as the original claim said); the equipped
reference carries the same updated values. -/
theorem claim_C6 :
    (∀ (env : Env) (wid : String) (s : GameState) (w : Weapon),
      s.inventory.weapons.find? (fun x => x.id == wid) = some w →
      w.upgradeCost ≤ s.gems → 0 ≤ w.upgradeCost → 0 ≤ w.sellPrice →
      (upgradeWeapon env wid s).gems = s.gems - w.upgradeCost
      ∧ (upgradeWeapon env wid s).inventory.weapons.find? (fun x => x.id == wid)
          = some (upgradeWeaponEntry wid w)
      ∧ (upgradeWeaponEntry wid w).level = w.level + 1
      ∧ (upgradeWeaponEntry wid w).upgradeCost = ⌊(w.upgradeCost : ℚ) * (3 / 2)⌋
      ∧ (upgradeWeaponEntry wid w).sellPrice = ⌊(w.sellPrice : ℚ) * (6 / 5)⌋
      ∧ w.upgradeCost ≤ (upgradeWeaponEntry wid w).upgradeCost
      ∧ w.sellPrice ≤ (upgradeWeaponEntry wid w).sellPrice
      ∧ (2 ≤ w.upgradeCost → w.upgradeCost < (upgradeWeaponEntry wid w).upgradeCost)
      ∧ (5 ≤ w.sellPrice → w.sellPrice < (upgradeWeaponEntry wid w).sellPrice)
      ∧ (∀ cw, s.inventory.currentWeapon = some cw → cw.id = wid →
          (upgradeWeapon env wid s).inventory.currentWeapon
            = some (upgradeWeaponEntry wid w)))
    ∧ (∀ (env : Env) (aid : String) (s : GameState) (a : Armor),
      s.inventory.armor.find? (fun x => x.id == aid) = some a →
      a.upgradeCost ≤ s.gems → 0 ≤ a.upgradeCost → 0 ≤ a.sellPrice →
      (upgradeArmor env aid s).gems = s.gems - a.upgradeCost
      ∧ (upgradeArmor env aid s).inventory.armor.find? (fun x => x.id == aid)
          = some (upgradeArmorEntry aid a)
      ∧ (upgradeArmorEntry aid a).level = a.level + 1
      ∧ (upgradeArmorEntry aid a).upgradeCost = ⌊(a.upgradeCost : ℚ) * (3 / 2)⌋
      ∧ (upgradeArmorEntry aid a).sellPrice = ⌊(a.sellPrice : ℚ) * (6 / 5)⌋
      ∧ a.upgradeCost ≤ (upgradeArmorEntry aid a).upgradeCost
      ∧ a.sellPrice ≤ (upgradeArmorEntry aid a).sellPrice
      ∧ (2 ≤ a.upgradeCost → a.upgradeCost < (upgradeArmorEntry aid a).upgradeCost)
      ∧ (5 ≤ a.sellPrice → a.sellPrice < (upgradeArmorEntry aid a).sellPrice)
      ∧ (∀ ca, s.inventory.currentArmor = some ca → ca.id = aid →
          (upgradeArmor env aid s).inventory.currentArmor
            = some (upgradeArmorEntry aid a))) := by
  constructor
  · intro env wid s w hfind hcost hc0 hs0
    have hbeq : (w.id == wid) = true := by simpa using List.find?_some hfind
    have hnot : ¬ s.gems < w.upgradeCost := not_lt.mpr hcost
    have hgems : (upgradeWeaponCore wid s).gems = s.gems - w.upgradeCost := by
      simp only [upgradeWeaponCore, hfind]; rw [if_neg hnot]
    have hWts : (upgradeWeaponCore wid s).inventory.weapons
        = s.inventory.weapons.map (upgradeWeaponEntry wid) := by
      simp only [upgradeWeaponCore, hfind]; rw [if_neg hnot]
    have hEntry : (upgradeWeaponEntry wid w).level = w.level + 1
        ∧ (upgradeWeaponEntry wid w).upgradeCost = ⌊(w.upgradeCost : ℚ) * (3 / 2)⌋
        ∧ (upgradeWeaponEntry wid w).sellPrice = ⌊(w.sellPrice : ℚ) * (6 / 5)⌋ := by
      simp [upgradeWeaponEntry, hbeq]
    refine ⟨?_, ?_, hEntry.1, hEntry.2.1, hEntry.2.2, ?_, ?_, ?_, ?_, ?_⟩
    · rw [upgradeWeapon, updatePlayerStats_gems, hgems]
    · rw [upgradeWeapon, updatePlayerStats_inventory, hWts]
      exact find?_map_upgradeWeaponEntry wid _ w hfind
    · rw [hEntry.2.1]; exact le_floor_three_half hc0
    · rw [hEntry.2.2]; exact le_floor_six_fifth hs0
    · intro h2; rw [hEntry.2.1]; exact lt_floor_three_half h2
    · intro h5; rw [hEntry.2.2]; exact lt_floor_six_fifth h5
    · intro cw hcw hcwid
      have hbcw : (cw.id == wid) = true := by simp [hcwid]
      rw [upgradeWeapon, updatePlayerStats_inventory]
      simp only [upgradeWeaponCore, hfind]
      rw [if_neg hnot]
      simp only [hcw, hbcw, if_true]
      exact find?_map_upgradeWeaponEntry wid _ w hfind
  · intro env aid s a hfind hcost hc0 hs0
    have hbeq : (a.id == aid) = true := by simpa using List.find?_some hfind
    have hnot : ¬ s.gems < a.upgradeCost := not_lt.mpr hcost
    have hgems : (upgradeArmorCore aid s).gems = s.gems - a.upgradeCost := by
      simp only [upgradeArmorCore, hfind]; rw [if_neg hnot]
    have hAts : (upgradeArmorCore aid s).inventory.armor
        = s.inventory.armor.map (upgradeArmorEntry aid) := by
      simp only [upgradeArmorCore, hfind]; rw [if_neg hnot]
    have hEntry : (upgradeArmorEntry aid a).level = a.level + 1
        ∧ (upgradeArmorEntry aid a).upgradeCost = ⌊(a.upgradeCost : ℚ) * (3 / 2)⌋
        ∧ (upgradeArmorEntry aid a).sellPrice = ⌊(a.sellPrice : ℚ) * (6 / 5)⌋ := by
      simp [upgradeArmorEntry, hbeq]
    refine ⟨?_, ?_, hEntry.1, hEntry.2.1, hEntry.2.2, ?_, ?_, ?_, ?_, ?_⟩
    · rw [upgradeArmor, updatePlayerStats_gems, hgems]
    · rw [upgradeArmor, updatePlayerStats_inventory, hAts]
      exact find?_map_upgradeArmorEntry aid _ a hfind
    · rw [hEntry.2.1]; exact le_floor_three_half hc0
    · rw [hEntry.2.2]; exact le_floor_six_fifth hs0
    · intro h2; rw [hEntry.2.1]; exact lt_floor_three_half h2
    · intro h5; rw [hEntry.2.2]; exact lt_floor_six_fifth h5
    · intro ca hca hcaid
      have hbca : (ca.id == aid) = true := by simp [hcaid]
      rw [upgradeArmor, updatePlayerStats_inventory]
      simp only [upgradeArmorCore, hfind]
      rw [if_neg hnot]
      simp only [hca, hbca, if_true]
      exact find?_map_upgradeArmorEntry aid _ a hfind

/-- A weapon with small `upgradeCost`/`sellPrice`. -/
def cheapWeapon : Weapon :=
  { id := "w1", name := "Stick", rarity := Rarity.common, level := 1,
    baseAtk := 5, upgradeCost := 1, sellPrice := 4 }

/-- A state owning `cheapWeapon` with enough gems to upgrade it. -/
def cheapState : GameState :=
  { initialGameState [] with
    gems := 10,
    inventory := { initialInventory with weapons := [cheapWeapon] } }

/-- Counterexample to C6 as stated: the upgrade goes through (gems are
deducted, the level is bumped) yet `floor(1*1.5) = 1` and
`floor(4*1.2) = 4`, so neither `upgradeCost` nor `sellPrice` increased. -/
theorem claim_C6_counterexample :
    (upgradeWeapon env0 "w1" cheapState).gems = 9
    ∧ (upgradeWeapon env0 "w1" cheapState).inventory.weapons
        = [{ id := "w1", name := "Stick", rarity := Rarity.common, level := 2,
             baseAtk := 5, upgradeCost := 1, sellPrice := 4 }] := by
  have hfind : cheapState.inventory.weapons.find? (fun x => x.id == "w1")
      = some cheapWeapon := by decide
  have hnot : ¬ cheapState.gems < cheapWeapon.upgradeCost := by decide
  constructor
  · rw [upgradeWeapon, updatePlayerStats_gems]
    simp only [upgradeWeaponCore, hfind]
    rw [if_neg hnot]
    decide
  · rw [upgradeWeapon, updatePlayerStats_inventory]
    simp only [upgradeWeaponCore, hfind]
    rw [if_neg hnot]
    show List.map (upgradeWeaponEntry "w1") cheapState.inventory.weapons = _
    simp only [cheapState, cheapWeapon, initialGameState, initialInventory,
      List.map_cons, List.map_nil, upgradeWeaponEntry]
    norm_num

/-- A weapon past both strict-increase thresholds. -/
def fairWeapon : Weapon :=
  { id := "w2", name := "Blade", rarity := Rarity.rare, level := 3,
    baseAtk := 12, upgradeCost := 8, sellPrice := 20 }

/-- A state owning `fairWeapon` with exactly enough gems. -/
def fairState : GameState :=
  { initialGameState [] with
    gems := 8,
    inventory := { initialInventory with weapons := [fairWeapon] } }

/-- Witness for C6 at concrete inputs. -/
theorem claim_C6_witness :
    (upgradeWeapon env0 "w2" fairState).gems = 0
    ∧ fairWeapon.upgradeCost < (upgradeWeaponEntry "w2" fairWeapon).upgradeCost
    ∧ fairWeapon.sellPrice < (upgradeWeaponEntry "w2" fairWeapon).sellPrice := by
  have h := claim_C6.1 env0 "w2" fairState fairWeapon (by decide) (by decide)
    (by decide) (by decide)
  refine ⟨?_, h.2.2.2.2.2.2.2.1 (by decide), h.2.2.2.2.2.2.2.2.1 (by decide)⟩
  rw [h.1]; decide

/-- A weapon whose name is already in the book of `dupState`. -/
def dupWeapon : Weapon :=
  { id := "w9", name := "Iron Sword", rarity := Rarity.common,
    level := 1, baseAtk := 10, upgradeCost := 10, sellPrice := 10 }

/-- A state that has already discovered "Iron Sword". -/
def dupState : GameState :=
  { initialGameState [] with
    collectionBook := { initialCollectionBook with weapons := ["Iron Sword"] } }

/-! ## C5: failed preconditions -/

lemma updatePlayerStats_env0_initial :
    updatePlayerStats env0 (initialGameState []) = initialGameState [] := by
  unfold updatePlayerStats
  norm_num [env0, initialGameState, initialPlayerStats, initialInventory,
    initialResearch]

/-- C5 (amended).  Precondition-not-met intents: selling an unknown or
currently equipped item, opening a chest with too few coins (which
returns no reward), and attacking while idle leave the state completely
unchanged; failed upgrades leave everything unchanged too, except that
the upgrade callbacks unconditionally re-run the derived-stat
recomputation, so the state is literally unchanged exactly when its
derived stats already agree with that recomputation (hypothesis
`updatePlayerStats env s = s`).  All operations are total. -/
theorem claim_C5 (env : Env) (s : GameState) :
    (∀ wid : String,
      (∀ w ∈ s.inventory.weapons, w.id = wid → s.gems < w.upgradeCost) →
      updatePlayerStats env s = s → upgradeWeapon env wid s = s)
    ∧ (∀ aid : String,
      (∀ a ∈ s.inventory.armor, a.id = aid → s.gems < a.upgradeCost) →
      updatePlayerStats env s = s → upgradeArmor env aid s = s)
    ∧ (∀ wid : String, (∀ w ∈ s.inventory.weapons, w.id ≠ wid) → sellWeapon wid s = s)
    ∧ (∀ cw, s.inventory.currentWeapon = some cw → sellWeapon cw.id s = s)
    ∧ (∀ aid : String, (∀ a ∈ s.inventory.armor, a.id ≠ aid) → sellArmor aid s = s)
    ∧ (∀ ca, s.inventory.currentArmor = some ca → sellArmor ca.id s = s)
    ∧ (∀ cost items bg ct, s.coins < cost →
        openChestFn env cost items bg ct s = (none, s))
    ∧ (∀ hit cat r rg now, s.inCombat = false → attackFn hit cat r rg now s = s)
    ∧ (∀ hit cat r rg now, s.currentEnemy = none → attackFn hit cat r rg now s = s) := by
  refine ⟨?_, ?_, ?_, ?_, ?_, ?_, ?_, ?_, ?_⟩
  · intro wid hins hcons
    have hcore : upgradeWeaponCore wid s = s := by
      unfold upgradeWeaponCore
      cases hfind : s.inventory.weapons.find? (fun w => w.id == wid) with
      | none => rfl
      | some w =>
        have hmem := List.mem_of_find?_eq_some hfind
        have hid : w.id = wid := by simpa using List.find?_some hfind
        simp [hins w hmem hid]
    rw [upgradeWeapon, hcore, hcons]
  · intro aid hins hcons
    have hcore : upgradeArmorCore aid s = s := by
      unfold upgradeArmorCore
      cases hfind : s.inventory.armor.find? (fun a => a.id == aid) with
      | none => rfl
      | some a =>
        have hmem := List.mem_of_find?_eq_some hfind
        have hid : a.id = aid := by simpa using List.find?_some hfind
        simp [hins a hmem hid]
    rw [upgradeArmor, hcore, hcons]
  · intro wid hnone
    have : s.inventory.weapons.find? (fun w => w.id == wid) = none :=
      List.find?_eq_none.mpr (fun w hw => by simpa using hnone w hw)
    simp [sellWeapon, this]
  · intro cw hcw
    unfold sellWeapon
    cases hfind : s.inventory.weapons.find? (fun w => w.id == cw.id) with
    | none => rfl
    | some w =>
      have : currentWeaponIdIs s cw.id = true := by
        simp [currentWeaponIdIs, hcw]
      simp [this]
  · intro aid hnone
    have : s.inventory.armor.find? (fun a => a.id == aid) = none :=
      List.find?_eq_none.mpr (fun a ha => by simpa using hnone a ha)
    simp [sellArmor, this]
  · intro ca hca
    unfold sellArmor
    cases hfind : s.inventory.armor.find? (fun a => a.id == ca.id) with
    | none => rfl
    | some a =>
      have : currentArmorIdIs s ca.id = true := by
        simp [currentArmorIdIs, hca]
      simp [this]
  · intro cost items bg ct h
    simp [openChestFn, h]
  · intro hit cat r rg now h
    unfold attackFn
    cases s.currentEnemy with
    | none => rfl
    | some e => simp [h]
  · intro hit cat r rg now h
    simp [attackFn, h]

/-- A state whose stored `atk` disagrees with the derived-stat
recomputation (as a stale saved snapshot can be). -/
def staleState : GameState :=
  { initialGameState [] with
    playerStats := { initialPlayerStats with atk := 999 } }

/-- Counterexample to C5 as stated: upgrading an unknown item id does
not always return the state completely unchanged — the unconditional
trailing `updatePlayerStats()` rewrites stale derived stats. -/
theorem claim_C5_counterexample :
    upgradeWeapon env0 "ghost" staleState ≠ staleState := by
  intro h
  have h2 : (upgradeWeapon env0 "ghost" staleState).playerStats.atk = 50 := by
    unfold upgradeWeapon upgradeWeaponCore updatePlayerStats
    norm_num [staleState, env0, initialGameState, initialPlayerStats,
      initialInventory, initialResearch]
  rw [h] at h2
  norm_num [staleState, initialPlayerStats] at h2

/-- Witness for C5 at concrete inputs. -/
theorem claim_C5_witness :
    upgradeWeapon env0 "ghost" (initialGameState []) = initialGameState []
    ∧ sellWeapon "ghost" (initialGameState []) = initialGameState []
    ∧ openChestFn env0 2500 [] 5 true (initialGameState [])
        = (none, initialGameState [])
    ∧ attackFn true none 0 0 0 (initialGameState []) = initialGameState [] := by
  refine ⟨(claim_C5 env0 _).1 "ghost" ?_ updatePlayerStats_env0_initial,
    (claim_C5 env0 _).2.2.1 "ghost" ?_,
    (claim_C5 env0 _).2.2.2.2.2.2.1 2500 [] 5 true ?_,
    (claim_C5 env0 _).2.2.2.2.2.2.2.2 true none 0 0 0 ?_⟩ <;>
    simp [initialGameState, initialInventory]

theorem claim_C9_witness :
    updateCollectionBook (Item.weapon dupWeapon) dupState = dupState :=
  (claim_C9 _ _).1 (by decide)

/-! ## C1: hp never exceeds maxHp -/

/-- The claimed player-stat invariant (with the non-negativity of `hp`
and of the immutable `baseHp` that combat flooring and the initial state
maintain, and which the preservation argument needs). -/
def hpInv (s : GameState) : Prop :=
  0 ≤ s.playerStats.baseHp ∧ 0 ≤ s.playerStats.hp
    ∧ s.playerStats.hp ≤ s.playerStats.maxHp

lemma hpInv_congr {s t : GameState} (h : t.playerStats = s.playerStats) :
    hpInv s → hpInv t := by
  unfold hpInv
  rw [h]
  exact id

lemma updatePlayerStats_hpInv (env : Env) (hrb : ∀ l t, 0 ≤ env.rb l t)
    (s : GameState) (h : hpInv s) : hpInv (updatePlayerStats env s) := by
  obtain ⟨hb, h0, hle⟩ := h
  have hM : (0 : ℤ) ≤ ⌊((s.playerStats.baseHp : ℤ) : ℚ)
      * (1 + env.rb s.research.level s.research.tier / 100)⌋ := by
    apply Int.floor_nonneg.mpr
    apply mul_nonneg
    · exact_mod_cast hb
    · have := hrb s.research.level s.research.tier
      linarith
  exact ⟨hb, le_min h0 hM, min_le_right _ _⟩

lemma upgradeWeaponCore_playerStats (wid : String) (s : GameState) :
    (upgradeWeaponCore wid s).playerStats = s.playerStats := by
  unfold upgradeWeaponCore
  split
  · rfl
  · split <;> rfl

lemma upgradeArmorCore_playerStats (aid : String) (s : GameState) :
    (upgradeArmorCore aid s).playerStats = s.playerStats := by
  unfold upgradeArmorCore
  split
  · rfl
  · split <;> rfl

lemma sellWeapon_playerStats (wid : String) (s : GameState) :
    (sellWeapon wid s).playerStats = s.playerStats := by
  unfold sellWeapon
  split
  · rfl
  · split <;> rfl

lemma sellArmor_playerStats (aid : String) (s : GameState) :
    (sellArmor aid s).playerStats = s.playerStats := by
  unfold sellArmor
  split
  · rfl
  · split <;> rfl

lemma checkAndUnlockAchievements_playerStats (env : Env) (s : GameState) :
    (checkAndUnlockAchievements env s).playerStats = s.playerStats := by
  simp only [checkAndUnlockAchievements]
  split <;> rfl

lemma updateCollectionBook_playerStats (it : Item) (s : GameState) :
    (updateCollectionBook it s).playerStats = s.playerStats := by
  unfold updateCollectionBook
  split <;> split <;> rfl

lemma foldBook_playerStats (items : List Item) (s : GameState) :
    (items.foldl (fun acc it => updateCollectionBook it acc) s).playerStats
      = s.playerStats := by
  induction items generalizing s with
  | nil => rfl
  | cons a t ih => rw [List.foldl_cons, ih, updateCollectionBook_playerStats]

lemma updateStatistics_playerStats (c : String) (b : Bool) (s : GameState) :
    (updateStatistics c b s).playerStats = s.playerStats := rfl

lemma updateKnowledgeStreak_playerStats (now : ℕ) (b : Bool) (s : GameState) :
    (updateKnowledgeStreak now b s).playerStats = s.playerStats := rfl

lemma attackCombat_hpInv (hit : Bool) (r rg : ℤ) (s : GameState) (e : Enemy)
    (h : hpInv s) : hpInv (attackCombat hit r rg s e) := by
  obtain ⟨hb, h0, hle⟩ := h
  unfold hpInv
  simp only [attackCombat, winBranch, lossBranch]
  split_ifs <;> refine ⟨?_, ?_, ?_⟩ <;> dsimp only <;> omega

lemma attackFn_hpInv (hit : Bool) (cat : Option String) (r rg : ℤ) (now : ℕ)
    (s : GameState) (h : hpInv s) : hpInv (attackFn hit cat r rg now s) := by
  unfold attackFn
  cases hce : s.currentEnemy with
  | none => exact h
  | some e =>
    dsimp only
    split
    · exact h
    · apply hpInv_congr (updateKnowledgeStreak_playerStats _ _ _)
      have hcore := attackCombat_hpInv hit r rg s e h
      cases cat with
      | none => exact hcore
      | some c =>
        dsimp only
        split
        · exact hcore
        · exact hpInv_congr (updateStatistics_playerStats _ _ _) hcore

/-- C1.  After every transition operation (`applyIntent` covers equip,
upgrade, sell, research upgrade, chest opening, combat start, attack,
mode change and achievement unlocking), the player-stat invariant — in
particular `hp ≤ maxHp` — is preserved, provided the external research
bonus is a non-negative percentage; and the derived-stat recomputation
clamps `hp` to `min(hp, maxHp)` against the freshly computed `maxHp`. -/
theorem claim_C1 (env : Env) (hrb : ∀ l t, 0 ≤ env.rb l t) (i : Intent)
    (s : GameState) (h : hpInv s) :
    hpInv (applyIntent env i s)
    ∧ ∀ t : GameState, (updatePlayerStats env t).playerStats.hp
        = min t.playerStats.hp (updatePlayerStats env t).playerStats.maxHp := by
  refine ⟨?_, fun t => rfl⟩
  cases i with
  | equipW w =>
    exact updatePlayerStats_hpInv env hrb _ (hpInv_congr rfl h)
  | equipA a =>
    exact updatePlayerStats_hpInv env hrb _ (hpInv_congr rfl h)
  | upgradeW id =>
    exact updatePlayerStats_hpInv env hrb _
      (hpInv_congr (upgradeWeaponCore_playerStats id s) h)
  | upgradeA id =>
    exact updatePlayerStats_hpInv env hrb _
      (hpInv_congr (upgradeArmorCore_playerStats id s) h)
  | sellW id => exact hpInv_congr (sellWeapon_playerStats id s) h
  | sellA id => exact hpInv_congr (sellArmor_playerStats id s) h
  | research =>
    apply hpInv_congr (checkAndUnlockAchievements_playerStats env _)
    apply updatePlayerStats_hpInv env hrb
    apply hpInv_congr _ h
    simp only [upgradeResearch]
    split <;> rfl
  | chest cost items bg ct =>
    show hpInv (openChestFn env cost items bg ct s).2
    simp only [openChestFn]
    split
    · exact h
    · dsimp only
      apply hpInv_congr (checkAndUnlockAchievements_playerStats env _)
      exact hpInv_congr (foldBook_playerStats items s) h
  | fight e =>
    obtain ⟨hb, h0, hle⟩ := h
    show hpInv (startCombat e s)
    unfold startCombat hpInv
    dsimp only
    split <;> exact ⟨hb, by omega, by omega⟩
  | attack hit cat r rg now => exact attackFn_hpInv hit cat r rg now s h
  | mode m => exact hpInv_congr rfl h
  | achievementCheck =>
    exact hpInv_congr (checkAndUnlockAchievements_playerStats env s) h

/-- Witness for C1 at concrete inputs. -/
theorem claim_C1_witness :
    (∀ l t, (0 : ℚ) ≤ env0.rb l t) ∧ hpInv (initialGameState [])
    ∧ hpInv (applyIntent env0 Intent.research (initialGameState [])) := by
  have h0 : hpInv (initialGameState []) := by
    refine ⟨?_, ?_, ?_⟩ <;> decide
  exact ⟨fun _ _ => le_refl 0, h0,
    (claim_C1 env0 (fun _ _ => le_refl 0) Intent.research _ h0).1⟩

/-! ## C7: equipped references point into the collections -/

/-- `currentWeapon`/`currentArmor` are absent or reference entries present
in the respective collection. -/
def refInvariant (s : GameState) : Prop :=
  (∀ w, s.inventory.currentWeapon = some w → w ∈ s.inventory.weapons)
  ∧ (∀ a, s.inventory.currentArmor = some a → a ∈ s.inventory.armor)

lemma refInvariant_congr {s t : GameState} (h : t.inventory = s.inventory) :
    refInvariant s → refInvariant t := by
  unfold refInvariant
  rw [h]
  exact id

/-- The side condition the claim is missing: `equip` only preserves the
reference invariant when its argument is an entry of the collection, as
the UI callers pass.  All other intents need nothing. -/
def intentEquipOk : Intent → GameState → Prop
  | .equipW w, s => w ∈ s.inventory.weapons
  | .equipA a, s => a ∈ s.inventory.armor
  | _, _ => True

lemma checkAndUnlockAchievements_inventory (env : Env) (s : GameState) :
    (checkAndUnlockAchievements env s).inventory = s.inventory := by
  simp only [checkAndUnlockAchievements]
  split <;> rfl

lemma updateCollectionBook_inventory (it : Item) (s : GameState) :
    (updateCollectionBook it s).inventory = s.inventory := by
  unfold updateCollectionBook
  split <;> split <;> rfl

lemma foldBook_inventory (items : List Item) (s : GameState) :
    (items.foldl (fun acc it => updateCollectionBook it acc) s).inventory
      = s.inventory := by
  induction items generalizing s with
  | nil => rfl
  | cons a t ih => rw [List.foldl_cons, ih, updateCollectionBook_inventory]

lemma attackCombat_inventory (hit : Bool) (r rg : ℤ) (s : GameState) (e : Enemy) :
    (attackCombat hit r rg s e).inventory = s.inventory := by
  simp only [attackCombat, winBranch, lossBranch]
  split_ifs <;> rfl

lemma attackFn_inventory (hit : Bool) (cat : Option String) (r rg : ℤ) (now : ℕ)
    (s : GameState) : (attackFn hit cat r rg now s).inventory = s.inventory := by
  unfold attackFn
  cases s.currentEnemy with
  | none => rfl
  | some e =>
    dsimp only
    split
    · rfl
    · cases cat with
      | none => exact attackCombat_inventory hit r rg s e
      | some c =>
        dsimp only
        split
        · exact attackCombat_inventory hit r rg s e
        · exact attackCombat_inventory hit r rg s e

lemma upgradeWeaponCore_refInv (wid : String) (s : GameState)
    (h : refInvariant s) : refInvariant (upgradeWeaponCore wid s) := by
  unfold upgradeWeaponCore
  cases hfind : s.inventory.weapons.find? (fun w => w.id == wid) with
  | none => exact h
  | some w =>
    dsimp only
    split
    · exact h
    · unfold refInvariant
      dsimp only
      constructor
      · intro w' hw'
        revert hw'
        cases hcw : s.inventory.currentWeapon with
        | none => intro hw'; cases hw'
        | some cw =>
          dsimp only
          by_cases hcid : (cw.id == wid) = true
          · rw [if_pos hcid]
            intro hw'
            exact List.mem_of_find?_eq_some hw'
          · rw [if_neg hcid]
            intro hw'
            cases hw'
            have hmem := h.1 w' hcw
            have hfix : upgradeWeaponEntry wid w' = w' := by
              unfold upgradeWeaponEntry
              rw [if_neg hcid]
            exact hfix ▸ List.mem_map_of_mem (upgradeWeaponEntry wid) hmem
      · intro a ha
        exact h.2 a ha

lemma upgradeArmorCore_refInv (aid : String) (s : GameState)
    (h : refInvariant s) : refInvariant (upgradeArmorCore aid s) := by
  unfold upgradeArmorCore
  cases hfind : s.inventory.armor.find? (fun a => a.id == aid) with
  | none => exact h
  | some a =>
    dsimp only
    split
    · exact h
    · unfold refInvariant
      dsimp only
      constructor
      · intro w' hw'
        exact h.1 w' hw'
      · intro a' ha'
        revert ha'
        cases hca : s.inventory.currentArmor with
        | none => intro ha'; cases ha'
        | some ca =>
          dsimp only
          by_cases hcid : (ca.id == aid) = true
          · rw [if_pos hcid]
            intro ha'
            exact List.mem_of_find?_eq_some ha'
          · rw [if_neg hcid]
            intro ha'
            cases ha'
            have hmem := h.2 a' hca
            have hfix : upgradeArmorEntry aid a' = a' := by
              unfold upgradeArmorEntry
              rw [if_neg hcid]
            exact hfix ▸ List.mem_map_of_mem (upgradeArmorEntry aid) hmem

lemma sellWeapon_refInv (wid : String) (s : GameState)
    (h : refInvariant s) : refInvariant (sellWeapon wid s) := by
  unfold sellWeapon
  cases hfind : s.inventory.weapons.find? (fun w => w.id == wid) with
  | none => exact h
  | some w =>
    dsimp only
    by_cases hcur : currentWeaponIdIs s wid = true
    · rw [if_pos hcur]
      exact h
    · rw [if_neg hcur]
      unfold refInvariant
      dsimp only
      constructor
      · intro cw hcw
        apply List.mem_filter.mpr
        refine ⟨h.1 cw hcw, ?_⟩
        have hne : (cw.id == wid) = false := by
          unfold currentWeaponIdIs at hcur
          rw [hcw] at hcur
          exact eq_false_of_ne_true hcur
        simp [hne]
      · intro a ha
        exact h.2 a ha

lemma sellArmor_refInv (aid : String) (s : GameState)
    (h : refInvariant s) : refInvariant (sellArmor aid s) := by
  unfold sellArmor
  cases hfind : s.inventory.armor.find? (fun a => a.id == aid) with
  | none => exact h
  | some a =>
    dsimp only
    by_cases hcur : currentArmorIdIs s aid = true
    · rw [if_pos hcur]
      exact h
    · rw [if_neg hcur]
      unfold refInvariant
      dsimp only
      constructor
      · intro cw hcw
        exact h.1 cw hcw
      · intro ca hca
        apply List.mem_filter.mpr
        refine ⟨h.2 ca hca, ?_⟩
        have hne : (ca.id == aid) = false := by
          unfold currentArmorIdIs at hcur
          rw [hca] at hcur
          exact eq_false_of_ne_true hcur
        simp [hne]

/-- C7 (amended).  In every state satisfying the reference invariant,
every operation preserves it — with the proviso the claim lacks: an
`equip` intent preserves it only when its argument is an entry of the
respective collection (`intentEquipOk`); `equip` with an arbitrary item
argument can break it, as the counterexample shows. -/
theorem claim_C7 (env : Env) (i : Intent) (s : GameState)
    (h : refInvariant s) (hok : intentEquipOk i s) :
    refInvariant (applyIntent env i s) := by
  cases i with
  | equipW w =>
    show refInvariant (updatePlayerStats env _)
    apply refInvariant_congr (updatePlayerStats_inventory env _)
    constructor
    · intro w' hw'
      cases hw'
      exact hok
    · intro a ha
      exact h.2 a ha
  | equipA a =>
    show refInvariant (updatePlayerStats env _)
    apply refInvariant_congr (updatePlayerStats_inventory env _)
    constructor
    · intro w hw
      exact h.1 w hw
    · intro a' ha'
      cases ha'
      exact hok
  | upgradeW id =>
    show refInvariant (updatePlayerStats env _)
    exact refInvariant_congr (updatePlayerStats_inventory env _)
      (upgradeWeaponCore_refInv id s h)
  | upgradeA id =>
    show refInvariant (updatePlayerStats env _)
    exact refInvariant_congr (updatePlayerStats_inventory env _)
      (upgradeArmorCore_refInv id s h)
  | sellW id => exact sellWeapon_refInv id s h
  | sellA id => exact sellArmor_refInv id s h
  | research =>
    show refInvariant (checkAndUnlockAchievements env (updatePlayerStats env _))
    apply refInvariant_congr (checkAndUnlockAchievements_inventory env _)
    apply refInvariant_congr (updatePlayerStats_inventory env _)
    apply refInvariant_congr _ h
    simp only [upgradeResearch]
    split <;> rfl
  | chest cost items bg ct =>
    show refInvariant (openChestFn env cost items bg ct s).2
    simp only [openChestFn]
    split
    · exact h
    · dsimp only
      apply refInvariant_congr (checkAndUnlockAchievements_inventory env _)
      unfold refInvariant
      dsimp only
      rw [foldBook_inventory items s]
      constructor
      · intro cw hcw
        exact List.mem_append_left _ (h.1 cw hcw)
      · intro ca hca
        exact List.mem_append_left _ (h.2 ca hca)
  | fight e =>
    show refInvariant (startCombat e s)
    exact refInvariant_congr rfl h
  | attack hit cat r rg now =>
    exact refInvariant_congr (attackFn_inventory hit cat r rg now s) h
  | mode m => exact refInvariant_congr rfl h
  | achievementCheck =>
    exact refInvariant_congr (checkAndUnlockAchievements_inventory env s) h

/-- A weapon that is not in the inventory of the initial state. -/
def strayWeapon : Weapon :=
  { id := "ws", name := "Phantom Blade", rarity := Rarity.epic, level := 1,
    baseAtk := 30, upgradeCost := 10, sellPrice := 10 }

/-- Counterexample to C7 as stated: equipping an item that is not in the
collection (the operation performs no membership check) leaves
`currentWeapon` referencing an entry absent from `inventory.weapons`. -/
theorem claim_C7_counterexample :
    refInvariant (initialGameState [])
    ∧ ¬ refInvariant (applyIntent env0 (Intent.equipW strayWeapon)
        (initialGameState [])) := by
  constructor
  · constructor
    · intro w hw
      cases hw
    · intro a ha
      cases ha
  · intro hcon
    have hmem := hcon.1 strayWeapon rfl
    exact List.not_mem_nil _ hmem

/-- Witness for C7 at concrete inputs. -/
theorem claim_C7_witness :
    refInvariant (initialGameState [])
    ∧ refInvariant (applyIntent env0 (Intent.sellW "x") (initialGameState [])) := by
  have h : refInvariant (initialGameState []) := by
    constructor
    · intro w hw
      cases hw
    · intro a ha
      cases ha
  exact ⟨h, claim_C7 env0 (Intent.sellW "x") _ h trivial⟩

/-! ## C3: survival-mode loss -/

/-- Frame of `attack` past the guard: the queued statistics/streak
updaters leave every field of the combat updater's result untouched
except `statistics`'s question counters and `knowledgeStreak`; a wrong
answer zeroes the streak. -/
lemma attack_post_frame (hit : Bool) (cat : Option String) (r rg : ℤ) (now : ℕ)
    (s : GameState) (e : Enemy) (hin : s.inCombat = true)
    (hce : s.currentEnemy = some e) :
    (attackFn hit cat r rg now s).coins = (attackCombat hit r rg s e).coins
    ∧ (attackFn hit cat r rg now s).gems = (attackCombat hit r rg s e).gems
    ∧ (attackFn hit cat r rg now s).zone = (attackCombat hit r rg s e).zone
    ∧ (attackFn hit cat r rg now s).isPremium = (attackCombat hit r rg s e).isPremium
    ∧ (attackFn hit cat r rg now s).inventory = (attackCombat hit r rg s e).inventory
    ∧ (attackFn hit cat r rg now s).research = (attackCombat hit r rg s e).research
    ∧ (attackFn hit cat r rg now s).inCombat = (attackCombat hit r rg s e).inCombat
    ∧ (attackFn hit cat r rg now s).currentEnemy
        = (attackCombat hit r rg s e).currentEnemy
    ∧ (attackFn hit cat r rg now s).gameMode = (attackCombat hit r rg s e).gameMode
    ∧ (attackFn hit cat r rg now s).playerStats
        = (attackCombat hit r rg s e).playerStats
    ∧ (hit = false → (attackFn hit cat r rg now s).knowledgeStreak.current = 0) := by
  unfold attackFn
  rw [hce]
  dsimp only
  rw [hin, if_neg (by decide)]
  cases cat with
  | none =>
    exact ⟨rfl, rfl, rfl, rfl, rfl, rfl, rfl, rfl, rfl, rfl,
      fun h => by subst h; rfl⟩
  | some c =>
    dsimp only
    by_cases hc : c = ""
    · rw [if_pos hc]
      exact ⟨rfl, rfl, rfl, rfl, rfl, rfl, rfl, rfl, rfl, rfl,
        fun h => by subst h; rfl⟩
    · rw [if_neg hc]
      exact ⟨rfl, rfl, rfl, rfl, rfl, rfl, rfl, rfl, rfl, rfl,
        fun h => by subst h; rfl⟩

/-- The combat log the defeat path of `attack` produces on a fatal miss
(the `log3` of the source, lines 593–607). -/
def missLossLog (s : GameState) (e : Enemy) : List String :=
  let log2 := s.combatLog ++
    ["You missed! The " ++ e.name ++ " deals "
      ++ toString (max 1 (e.atk - s.playerStats.defense)) ++ " damage to you!"] ++
    ["You were defeated by the " ++ e.name ++ "..."]
  if s.gameMode.current = ModeKind.survival ∧ s.gameMode.survivalLives - 1 ≤ 0 then
    log2 ++ ["Game Over! No lives remaining."]
  else log2

/-- C3.  In survival mode, a lost combat (a miss whose damage empties the
player's HP) decrements `survivalLives` by 1.  If the decremented count
reaches 0, the state is hard-reset: zone 1, normal mode with
`survivalLives` restored to `maxSurvivalLives` (= 3), knowledge streak
`current` 0, `hp` 0, combat cleared, while inventory, coins, gems and
research stay untouched.  If lives remain above 0, combat is cleared and
only the decremented life count is kept (zone, inventory, currencies and
research unchanged, `hp` left at 0). -/
theorem claim_C3 (cat : Option String) (r rg : ℤ) (now : ℕ) (s : GameState)
    (e : Enemy) (hin : s.inCombat = true) (hce : s.currentEnemy = some e)
    (hsurv : s.gameMode.current = ModeKind.survival)
    (hdie : s.playerStats.hp ≤ max 1 (e.atk - s.playerStats.defense)) :
    (s.gameMode.survivalLives - 1 ≤ 0 →
      (attackFn false cat r rg now s).zone = 1
      ∧ (attackFn false cat r rg now s).gameMode.current = ModeKind.normal
      ∧ (attackFn false cat r rg now s).gameMode.survivalLives
          = (attackFn false cat r rg now s).gameMode.maxSurvivalLives
      ∧ (attackFn false cat r rg now s).gameMode.maxSurvivalLives = 3
      ∧ (attackFn false cat r rg now s).knowledgeStreak.current = 0
      ∧ (attackFn false cat r rg now s).playerStats.hp = 0
      ∧ (attackFn false cat r rg now s).inCombat = false
      ∧ (attackFn false cat r rg now s).currentEnemy = none
      ∧ (attackFn false cat r rg now s).inventory = s.inventory
      ∧ (attackFn false cat r rg now s).coins = s.coins
      ∧ (attackFn false cat r rg now s).gems = s.gems
      ∧ (attackFn false cat r rg now s).research = s.research)
    ∧ (0 < s.gameMode.survivalLives - 1 →
      (attackFn false cat r rg now s).gameMode
          = { s.gameMode with survivalLives := s.gameMode.survivalLives - 1 }
      ∧ (attackFn false cat r rg now s).inCombat = false
      ∧ (attackFn false cat r rg now s).currentEnemy = none
      ∧ (attackFn false cat r rg now s).playerStats.hp = 0
      ∧ (attackFn false cat r rg now s).zone = s.zone
      ∧ (attackFn false cat r rg now s).inventory = s.inventory
      ∧ (attackFn false cat r rg now s).coins = s.coins
      ∧ (attackFn false cat r rg now s).gems = s.gems
      ∧ (attackFn false cat r rg now s).research = s.research) := by
  obtain ⟨hco, hge, hzo, hpr, hinv, hres, hic, hene, hgm, hps, hstr⟩ :=
    attack_post_frame false cat r rg now s e hin hce
  have hp0 : max 0 (s.playerStats.hp - max 1 (e.atk - s.playerStats.defense)) ≤ 0 := by
    omega
  have hAC : attackCombat false r rg s e
      = lossBranch (max 0 (s.playerStats.hp - max 1 (e.atk - s.playerStats.defense)))
          s (missLossLog s e) := by
    show (if max 0 (s.playerStats.hp - max 1 (e.atk - s.playerStats.defense)) ≤ 0
          then _ else _) = _
    rw [if_pos hp0]
    rfl
  rw [hAC] at hco hge hzo hinv hres hic hene hgm hps
  refine ⟨fun hl => ?_, fun hl => ?_⟩
  · rw [show lossBranch
        (max 0 (s.playerStats.hp - max 1 (e.atk - s.playerStats.defense))) s
          (missLossLog s e)
      = { s with
          zone := 1, currentEnemy := none, inCombat := false,
          combatLog := missLossLog s e,
          playerStats := { s.playerStats with hp := 0 },
          gameMode := { initialGameMode with current := ModeKind.normal },
          knowledgeStreak := { s.knowledgeStreak with current := 0 } } by
        unfold lossBranch
        rw [if_pos hsurv, if_pos hl]]
      at hco hge hzo hinv hres hic hene hgm hps
    exact ⟨hzo, by simp [hgm, initialGameMode], by simp [hgm, initialGameMode],
      by simp [hgm, initialGameMode], hstr rfl, by simp [hps],
      hic, hene, hinv, hco, hge, hres⟩
  · rw [show lossBranch
        (max 0 (s.playerStats.hp - max 1 (e.atk - s.playerStats.defense))) s
          (missLossLog s e)
      = { s with
          currentEnemy := none, inCombat := false,
          combatLog := missLossLog s e,
          playerStats := { s.playerStats with
            hp := max 0 (s.playerStats.hp - max 1 (e.atk - s.playerStats.defense)) },
          gameMode := { s.gameMode with
            survivalLives := s.gameMode.survivalLives - 1 } } by
        unfold lossBranch
        rw [if_pos hsurv, if_neg (by omega)]]
      at hco hge hzo hinv hres hic hene hgm hps
    refine ⟨by simp [hgm], hic, hene, ?_, hzo, hinv, hco, hge, hres⟩
    rw [hps]
    show max 0 (s.playerStats.hp - max 1 (e.atk - s.playerStats.defense)) = 0
    omega

/-- An enemy that kills the player on a miss. -/
def brutalEnemy : Enemy :=
  { name := "Ogre", zone := 4, hp := 100, maxHp := 100, atk := 999, defense := 0 }

/-- A survival-mode state, in combat, with 1 life left. -/
def lastLifeState : GameState :=
  { initialGameState [] with
    inCombat := true,
    currentEnemy := some brutalEnemy,
    gameMode := { current := ModeKind.survival, speedModeActive := false,
                  survivalLives := 1, maxSurvivalLives := 3 } }

/-- Witness for C3 at concrete inputs. -/
theorem claim_C3_witness :
    (attackFn false none 0 0 0 lastLifeState).zone = 1
    ∧ (attackFn false none 0 0 0 lastLifeState).gameMode.current = ModeKind.normal
    ∧ (attackFn false none 0 0 0 lastLifeState).coins = lastLifeState.coins := by
  have h := (claim_C3 none 0 0 0 lastLifeState brutalEnemy rfl rfl rfl
    (by decide)).1 (by decide)
  exact ⟨h.1, h.2.1, h.2.2.2.2.2.2.2.2.2.1⟩

/-! ## C2: a killing hit ends combat with the specified rewards -/

/-- C2.  From an in-combat state, an attack with `hit = true` whose damage
covers the enemy HP ends combat, advances the zone by exactly 1, derives
`isPremium` as (new zone ≥ 50), credits
`coins = floor((zone*8 + r) * m)` and `gems = floor((r2 + 1) * m2)` for
the draws `r ∈ [0,15)`, `r2 ∈ [0,3)`, where the multipliers are the mode
table (1×/1× normal, 1.5×/1.25× speed, 2×/2× survival) times the current
knowledge-streak multiplier, raises `zonesReached` to the max with the
new zone, and accumulates the credited amounts in the statistics. -/
theorem claim_C2 (cat : Option String) (r rg : ℤ) (now : ℕ) (s : GameState)
    (e : Enemy) (hin : s.inCombat = true) (hce : s.currentEnemy = some e)
    (hkill : e.hp ≤ max 1 (s.playerStats.atk - e.defense))
    (hr : 0 ≤ r ∧ r < 15) (hrg : 0 ≤ rg ∧ rg < 3) :
    (attackFn true cat r rg now s).inCombat = false
    ∧ (attackFn true cat r rg now s).currentEnemy = none
    ∧ (attackFn true cat r rg now s).zone = s.zone + 1
    ∧ (attackFn true cat r rg now s).isPremium = decide (50 ≤ s.zone + 1)
    ∧ (attackFn true cat r rg now s).coins = s.coins + ⌊((s.zone * 8 + r : ℤ) : ℚ)
        * (modeCoinMult s.gameMode.current * s.knowledgeStreak.multiplier)⌋
    ∧ (attackFn true cat r rg now s).gems = s.gems + ⌊((rg + 1 : ℤ) : ℚ)
        * (modeGemMult s.gameMode.current * s.knowledgeStreak.multiplier)⌋
    ∧ (attackFn true cat r rg now s).statistics.zonesReached
        = max s.statistics.zonesReached (s.zone + 1)
    ∧ (attackFn true cat r rg now s).statistics.coinsEarned
        = s.statistics.coinsEarned + ⌊((s.zone * 8 + r : ℤ) : ℚ)
            * (modeCoinMult s.gameMode.current * s.knowledgeStreak.multiplier)⌋
    ∧ (attackFn true cat r rg now s).statistics.gemsEarned
        = s.statistics.gemsEarned + ⌊((rg + 1 : ℤ) : ℚ)
            * (modeGemMult s.gameMode.current * s.knowledgeStreak.multiplier)⌋
    ∧ modeCoinMult ModeKind.normal = 1 ∧ modeGemMult ModeKind.normal = 1
    ∧ modeCoinMult ModeKind.speed = 3 / 2 ∧ modeGemMult ModeKind.speed = 5 / 4
    ∧ modeCoinMult ModeKind.survival = 2 ∧ modeGemMult ModeKind.survival = 2 := by
  obtain ⟨hco, hge, hzo, hpr, hinv, hres, hic, hene, hgm, hps, hstr⟩ :=
    attack_post_frame true cat r rg now s e hin hce
  have hz : max 0 (e.hp - max 1 (s.playerStats.atk - e.defense)) ≤ 0 := by omega
  have hAC : attackCombat true r rg s e
      = winBranch r rg s
          ((s.combatLog ++
            ["You deal " ++ toString (max 1 (s.playerStats.atk - e.defense))
              ++ " damage to the " ++ e.name ++ "!"]) ++
           ["You defeated the " ++ e.name ++ "!"]) := by
    show (if max 0 (e.hp - max 1 (s.playerStats.atk - e.defense)) ≤ 0
          then _ else _) = _
    rw [if_pos hz]
  rw [hAC] at hco hge hzo hpr hic hene
  -- usage of statistics goes through the frame on the full statistics record
  have hstats : (attackFn true cat r rg now s).statistics.zonesReached
        = max s.statistics.zonesReached (s.zone + 1)
      ∧ (attackFn true cat r rg now s).statistics.coinsEarned
        = s.statistics.coinsEarned + ⌊((s.zone * 8 + r : ℤ) : ℚ)
            * (modeCoinMult s.gameMode.current * s.knowledgeStreak.multiplier)⌋
      ∧ (attackFn true cat r rg now s).statistics.gemsEarned
        = s.statistics.gemsEarned + ⌊((rg + 1 : ℤ) : ℚ)
            * (modeGemMult s.gameMode.current * s.knowledgeStreak.multiplier)⌋ := by
    unfold attackFn
    rw [hce]
    dsimp only
    rw [hin, if_neg (by decide), hAC]
    cases cat with
    | none => exact ⟨rfl, rfl, rfl⟩
    | some c =>
      dsimp only
      by_cases hc : c = ""
      · rw [if_pos hc]
        exact ⟨rfl, rfl, rfl⟩
      · rw [if_neg hc]
        exact ⟨rfl, rfl, rfl⟩
  refine ⟨by rw [hic]; rfl, by rw [hene]; rfl, by rw [hzo]; rfl,
    by rw [hpr]; rfl, by rw [hco]; rfl, by rw [hge]; rfl,
    hstats.1, hstats.2.1, hstats.2.2, rfl, rfl, rfl, rfl, rfl, rfl⟩

/-- An enemy a single hit of the initial player kills. -/
def frailEnemy : Enemy :=
  { name := "Slime", zone := 1, hp := 1, maxHp := 1, atk := 5, defense := 0 }

/-- The initial state placed in combat against `frailEnemy`. -/
def combatState : GameState :=
  { initialGameState [] with
    inCombat := true,
    currentEnemy := some frailEnemy }

/-- Witness for C2 at concrete inputs. -/
theorem claim_C2_witness :
    (attackFn true none 3 1 0 combatState).inCombat = false
    ∧ (attackFn true none 3 1 0 combatState).zone = 2 := by
  have h := claim_C2 none 3 1 0 combatState frailEnemy rfl rfl (by decide)
    (by decide) (by decide)
  refine ⟨h.1, ?_⟩
  rw [h.2.2.1]
  decide

/-! ## C10: survival carries hp = 0 into the next combat -/

/-- C10.  In survival mode, losing a combat while lives remain leaves
`hp` at 0 (not restored); the next `startCombat` in survival mode keeps
`hp` instead of resetting it to `maxHp`, so the player enters the next
combat with `hp = 0` and any single missed answer immediately ends it in
another loss (combat cleared, lives decremented again or hard reset). -/
theorem claim_C10 (cat : Option String) (r rg : ℤ) (now : ℕ) (s : GameState)
    (e e2 : Enemy) (t u : GameState)
    (hin : s.inCombat = true) (hce : s.currentEnemy = some e)
    (hsurv : s.gameMode.current = ModeKind.survival)
    (hdie : s.playerStats.hp ≤ max 1 (e.atk - s.playerStats.defense))
    (hlives : 0 < s.gameMode.survivalLives - 1)
    (ht : t = attackFn false cat r rg now s)
    (hu : u = startCombat e2 t) :
    t.playerStats.hp = 0
    ∧ t.gameMode.current = ModeKind.survival
    ∧ u.playerStats.hp = 0
    ∧ u.inCombat = true
    ∧ (∀ (cat2 : Option String) (r2 rg2 : ℤ) (now2 : ℕ),
        (attackFn false cat2 r2 rg2 now2 u).inCombat = false
        ∧ (attackFn false cat2 r2 rg2 now2 u).currentEnemy = none
        ∧ ((attackFn false cat2 r2 rg2 now2 u).gameMode.survivalLives
              = u.gameMode.survivalLives - 1
           ∨ ((attackFn false cat2 r2 rg2 now2 u).zone = 1
              ∧ (attackFn false cat2 r2 rg2 now2 u).gameMode.current
                  = ModeKind.normal))) := by
  obtain ⟨hco, hge, hzo, hpr, hinv, hres, hic, hene, hgm, hps, hstr⟩ :=
    attack_post_frame false cat r rg now s e hin hce
  have hp0 : max 0 (s.playerStats.hp - max 1 (e.atk - s.playerStats.defense)) ≤ 0 := by
    omega
  have hAC : attackCombat false r rg s e
      = lossBranch (max 0 (s.playerStats.hp - max 1 (e.atk - s.playerStats.defense)))
          s (missLossLog s e) := by
    show (if max 0 (s.playerStats.hp - max 1 (e.atk - s.playerStats.defense)) ≤ 0
          then _ else _) = _
    rw [if_pos hp0]
    rfl
  rw [hAC] at hgm hps
  rw [show lossBranch
        (max 0 (s.playerStats.hp - max 1 (e.atk - s.playerStats.defense))) s
          (missLossLog s e)
      = { s with
          currentEnemy := none, inCombat := false,
          combatLog := missLossLog s e,
          playerStats := { s.playerStats with
            hp := max 0 (s.playerStats.hp - max 1 (e.atk - s.playerStats.defense)) },
          gameMode := { s.gameMode with
            survivalLives := s.gameMode.survivalLives - 1 } } by
      unfold lossBranch
      rw [if_pos hsurv, if_neg (by omega)]]
    at hgm hps
  have ht_hp : t.playerStats.hp = 0 := by
    rw [ht, hps]
    show max 0 (s.playerStats.hp - max 1 (e.atk - s.playerStats.defense)) = 0
    omega
  have ht_mode : t.gameMode.current = ModeKind.survival := by
    rw [ht, hgm]
    exact hsurv
  have hu_hp : u.playerStats.hp = 0 := by
    rw [hu]
    unfold startCombat
    dsimp only
    rw [if_pos ht_mode]
    exact ht_hp
  have hu_in : u.inCombat = true := by
    rw [hu]
    rfl
  have hu_ce : u.currentEnemy = some e2 := by
    rw [hu]
    rfl
  have hu_mode : u.gameMode.current = ModeKind.survival := by
    rw [hu]
    exact ht_mode
  refine ⟨ht_hp, ht_mode, hu_hp, hu_in, ?_⟩
  intro cat2 r2 rg2 now2
  obtain ⟨_, _, hzo2, _, _, _, hic2, hene2, hgm2, hps2, _⟩ :=
    attack_post_frame false cat2 r2 rg2 now2 u e2 hu_in hu_ce
  have hp02 : max 0 (u.playerStats.hp - max 1 (e2.atk - u.playerStats.defense)) ≤ 0 := by
    omega
  have hAC2 : attackCombat false r2 rg2 u e2
      = lossBranch (max 0 (u.playerStats.hp - max 1 (e2.atk - u.playerStats.defense)))
          u (missLossLog u e2) := by
    show (if max 0 (u.playerStats.hp - max 1 (e2.atk - u.playerStats.defense)) ≤ 0
          then _ else _) = _
    rw [if_pos hp02]
    rfl
  rw [hAC2] at hzo2 hic2 hene2 hgm2
  by_cases hl2 : u.gameMode.survivalLives - 1 ≤ 0
  · rw [show lossBranch
          (max 0 (u.playerStats.hp - max 1 (e2.atk - u.playerStats.defense))) u
            (missLossLog u e2)
        = { u with
            zone := 1, currentEnemy := none, inCombat := false,
            combatLog := missLossLog u e2,
            playerStats := { u.playerStats with hp := 0 },
            gameMode := { initialGameMode with current := ModeKind.normal },
            knowledgeStreak := { u.knowledgeStreak with current := 0 } } by
        unfold lossBranch
        rw [if_pos hu_mode, if_pos hl2]]
      at hzo2 hic2 hene2 hgm2
    exact ⟨hic2, hene2, Or.inr ⟨hzo2, by simp [hgm2, initialGameMode]⟩⟩
  · rw [show lossBranch
          (max 0 (u.playerStats.hp - max 1 (e2.atk - u.playerStats.defense))) u
            (missLossLog u e2)
        = { u with
            currentEnemy := none, inCombat := false,
            combatLog := missLossLog u e2,
            playerStats := { u.playerStats with
              hp := max 0 (u.playerStats.hp - max 1 (e2.atk - u.playerStats.defense)) },
            gameMode := { u.gameMode with
              survivalLives := u.gameMode.survivalLives - 1 } } by
        unfold lossBranch
        rw [if_pos hu_mode, if_neg hl2]]
      at hic2 hene2 hgm2
    exact ⟨hic2, hene2, Or.inl (by simp [hgm2])⟩

/-- A survival-mode state, in combat against `brutalEnemy`, with all
3 lives. -/
def twoMoreLivesState : GameState :=
  { initialGameState [] with
    inCombat := true,
    currentEnemy := some brutalEnemy,
    gameMode := { current := ModeKind.survival, speedModeActive := false,
                  survivalLives := 3, maxSurvivalLives := 3 } }

/-- Witness for C10 at concrete inputs. -/
theorem claim_C10_witness :
    (startCombat brutalEnemy (attackFn false none 0 0 0 twoMoreLivesState)).playerStats.hp = 0
    ∧ (attackFn false none 0 0 0
        (startCombat brutalEnemy (attackFn false none 0 0 0 twoMoreLivesState))).inCombat
      = false := by
  have h := claim_C10 none 0 0 0 twoMoreLivesState brutalEnemy brutalEnemy
    (attackFn false none 0 0 0 twoMoreLivesState)
    (startCombat brutalEnemy (attackFn false none 0 0 0 twoMoreLivesState))
    rfl rfl rfl (by decide) (by decide) rfl rfl
  exact ⟨h.2.2.1, (h.2.2.2.2 none 0 0 0).1⟩

/-! ## C8: isPremium across transitions -/

lemma updatePlayerStats_isPremium (env : Env) (s : GameState) :
    (updatePlayerStats env s).isPremium = s.isPremium := rfl

lemma upgradeWeaponCore_isPremium (wid : String) (s : GameState) :
    (upgradeWeaponCore wid s).isPremium = s.isPremium := by
  unfold upgradeWeaponCore
  split
  · rfl
  · split <;> rfl

lemma upgradeArmorCore_isPremium (aid : String) (s : GameState) :
    (upgradeArmorCore aid s).isPremium = s.isPremium := by
  unfold upgradeArmorCore
  split
  · rfl
  · split <;> rfl

lemma sellWeapon_isPremium (wid : String) (s : GameState) :
    (sellWeapon wid s).isPremium = s.isPremium := by
  unfold sellWeapon
  split
  · rfl
  · split <;> rfl

lemma sellArmor_isPremium (aid : String) (s : GameState) :
    (sellArmor aid s).isPremium = s.isPremium := by
  unfold sellArmor
  split
  · rfl
  · split <;> rfl

lemma checkAndUnlockAchievements_isPremium (env : Env) (s : GameState) :
    (checkAndUnlockAchievements env s).isPremium = s.isPremium := by
  simp only [checkAndUnlockAchievements]
  split <;> rfl

lemma updateCollectionBook_isPremium (it : Item) (s : GameState) :
    (updateCollectionBook it s).isPremium = s.isPremium := by
  unfold updateCollectionBook
  split <;> split <;> rfl

lemma foldBook_isPremium (items : List Item) (s : GameState) :
    (items.foldl (fun acc it => updateCollectionBook it acc) s).isPremium
      = s.isPremium := by
  induction items generalizing s with
  | nil => rfl
  | cons a t ih => rw [List.foldl_cons, ih, updateCollectionBook_isPremium]

/-- C8 (amended).  `isPremium` is not monotone: the only transition that
writes it is a winning attack, which recomputes it as (new zone ≥ 50)
regardless of its previous value — so a win at a zone below 49 while
`isPremium` is true reverts it to false (see the counterexample).  Every
transition either leaves `isPremium` unchanged or sets it to exactly
`decide (50 ≤ zone + 1)`. -/
theorem claim_C8 (env : Env) (i : Intent) (s : GameState) :
    (applyIntent env i s).isPremium = s.isPremium
    ∨ (applyIntent env i s).isPremium = decide (50 ≤ s.zone + 1) := by
  cases i with
  | equipW w => exact Or.inl rfl
  | equipA a => exact Or.inl rfl
  | upgradeW id =>
    exact Or.inl ((updatePlayerStats_isPremium env _).trans
      (upgradeWeaponCore_isPremium id s))
  | upgradeA id =>
    exact Or.inl ((updatePlayerStats_isPremium env _).trans
      (upgradeArmorCore_isPremium id s))
  | sellW id => exact Or.inl (sellWeapon_isPremium id s)
  | sellA id => exact Or.inl (sellArmor_isPremium id s)
  | research =>
    left
    show (checkAndUnlockAchievements env (updatePlayerStats env _)).isPremium
      = s.isPremium
    rw [checkAndUnlockAchievements_isPremium, updatePlayerStats_isPremium]
    simp only [upgradeResearch]
    split <;> rfl
  | chest cost items bg ct =>
    left
    show (openChestFn env cost items bg ct s).2.isPremium = s.isPremium
    simp only [openChestFn]
    split
    · rfl
    · dsimp only
      rw [checkAndUnlockAchievements_isPremium]
      exact foldBook_isPremium items s
  | fight e => exact Or.inl rfl
  | mode m => exact Or.inl rfl
  | achievementCheck =>
    exact Or.inl (checkAndUnlockAchievements_isPremium env s)
  | attack hit cat r rg now =>
    show (attackFn hit cat r rg now s).isPremium = s.isPremium
      ∨ (attackFn hit cat r rg now s).isPremium = decide (50 ≤ s.zone + 1)
    cases hce : s.currentEnemy with
    | none =>
      left
      have hid : attackFn hit cat r rg now s = s := by
        unfold attackFn
        rw [hce]
      rw [hid]
    | some e =>
      by_cases hin : s.inCombat = true
      · obtain ⟨_, _, _, hpr, _⟩ := attack_post_frame hit cat r rg now s e hin hce
        rw [hpr]
        simp only [attackCombat, winBranch, lossBranch]
        split_ifs <;> first | (left; rfl) | (right; rfl)
      · have hinf : s.inCombat = false := by
          revert hin
          cases s.inCombat <;> simp
        left
        have hid : attackFn hit cat r rg now s = s := by
          unfold attackFn
          rw [hce]
          dsimp only
          rw [hinf, if_pos rfl]
        rw [hid]

/-- A state that is premium (as a restored snapshot can be) at a low
zone, in combat against a one-hit enemy. -/
def premiumLowState : GameState :=
  { initialGameState [] with
    isPremium := true,
    inCombat := true,
    currentEnemy := some frailEnemy }

/-- Counterexample to C8 as stated: a combat win at zone 1 while
`isPremium` is true sets it back to false. -/
theorem claim_C8_counterexample :
    premiumLowState.isPremium = true
    ∧ (applyIntent env0 (Intent.attack true none 0 0 0) premiumLowState).isPremium
        = false := by
  exact ⟨rfl, by decide⟩

end Hugoland
